import Mathlib

/-!
Shallow embedding of the jdb debugger core (inferior control, breakpoints,
register snapshots, command history, command dispatch), translated from the
Rust sources:

* `src/process/stoppoint/mod.rs`, `src/process/stoppoint/breakpoint_site.rs`
* `src/process/mod.rs` (`Inferior`, `Process`)
* `src/process/registers.rs`, `src/process/register_info.rs`
* `src/history.rs`
* `src/debugger/mod.rs`

Machine integers are modelled as `Nat`/`Int` with explicit `% 2^w` where the
Rust code truncates.  Tracee memory is a byte-addressed function `Nat → Nat`
(bytes read modulo 256); `ptrace::read`/`ptrace::write` move one 64-bit
little-endian word.  Fallible operations return `Except` paired with the
post-state, mirroring Rust's `&mut self` methods (which may mutate even when
they return `Err`).  Syscall outcomes (`waitpid` statuses, freshly read
register files) are passed in as explicit inputs.
-/

/-! ## Stoppoints (`src/process/stoppoint/mod.rs`, `breakpoint_site.rs`) -/

/-- `StoppointId`: newtype over `i32`, drawn from the global `NEXT_ID` counter. -/
structure StoppointId where
  id : Int
deriving DecidableEq

/-- `VirtualAddress`: opaque `u64` naming a byte of the tracee's address space. -/
structure VirtualAddress where
  address : Nat
deriving DecidableEq

/-- `VirtualAddress::addr`. -/
def VirtualAddress.addr (a : VirtualAddress) : Nat := a.address

/-- `StoppointState` from `stoppoint/mod.rs`. -/
inductive StoppointState where
  | enabled
  | disabled
deriving DecidableEq

/-- `BreakpointSite`: id, target address, enabled flag. -/
structure BreakpointSite where
  id : StoppointId
  address : VirtualAddress
  state : StoppointState
deriving DecidableEq

/-- `BreakpointSite::new`.  The id comes from the atomic `NEXT_ID` counter,
threaded explicitly here (see `Process.next_id`); the state starts `Disabled`. -/
def BreakpointSite.new (id : StoppointId) (address : VirtualAddress) : BreakpointSite :=
  { id := id, address := address, state := .disabled }

/-- `BreakpointSite::enable`. -/
def BreakpointSite.enable (b : BreakpointSite) : BreakpointSite :=
  { b with state := .enabled }

/-- `BreakpointSite::disable`. -/
def BreakpointSite.disable (b : BreakpointSite) : BreakpointSite :=
  { b with state := .disabled }

/-- `BreakpointSite::is_enabled`. -/
def BreakpointSite.isEnabled (b : BreakpointSite) : Bool :=
  match b.state with
  | .enabled => true
  | .disabled => false

/-- `INTERRUPT_INSTRUCTION`: the one-byte `int3` opcode `0xCC`. -/
def INTERRUPT_INSTRUCTION : Nat := 0xCC

/-! ## Tracee memory and `ptrace` word access -/

/-- Byte-addressed tracee memory.  The value stored at an address is read
modulo 256, so any `Nat → Nat` function denotes a well-formed byte memory. -/
abbrev Mem := Nat → Nat

/-- The byte of tracee memory at address `a`. -/
def byteAt (m : Mem) (a : Nat) : Nat := m a % 256

/-- `ptrace::read`: one 64-bit word at `a`, little-endian over 8 bytes. -/
def ptraceRead (m : Mem) (a : Nat) : Nat :=
  (List.range 8).foldl (fun acc i => acc + byteAt m (a + i) * 256 ^ i) 0

/-- `ptrace::write`: store the 64-bit word `w` at `a`, little-endian. -/
def ptraceWrite (m : Mem) (a : Nat) (w : Nat) : Mem :=
  fun x => if a ≤ x ∧ x < a + 8 then w / 256 ^ (x - a) % 256 else m x

/-! ## Inferior (`src/process/mod.rs`) -/

/-- Association-list model of the `HashMap<StoppointId, u8>` of active sites. -/
def sitesLookup : List (StoppointId × Nat) → StoppointId → Option Nat
  | [], _ => none
  | (k, v) :: rest, i => if k = i then some v else sitesLookup rest i

/-- `HashMap::contains_key`. -/
def sitesContains (sites : List (StoppointId × Nat)) (i : StoppointId) : Bool :=
  (sitesLookup sites i).isSome

/-- `HashMap::remove` (keys are unique, so removing every occurrence agrees). -/
def sitesRemove : List (StoppointId × Nat) → StoppointId → List (StoppointId × Nat)
  | [], _ => []
  | (k, v) :: rest, i => if k = i then sitesRemove rest i else (k, v) :: sitesRemove rest i

/-- `HashMap::insert` (replacing any existing binding for the key). -/
def sitesInsert (sites : List (StoppointId × Nat)) (i : StoppointId) (v : Nat) :
    List (StoppointId × Nat) :=
  (i, v) :: sitesRemove sites i

/-- `Inferior`: a live tracee.  The pid and PTY handles are process resources
with no bearing on the verified logic; the model keeps the tracee memory and
the map from enabled breakpoint id to the saved original byte. -/
structure Inferior where
  mem : Mem
  breakpointSites : List (StoppointId × Nat)

/-- `Inferior::enable_breakpoint_site`: idempotent when the id is already
active; otherwise read the word at the site's address, save its low byte,
patch the low byte to `int3`, and record the saved byte. -/
def Inferior.enableBreakpointSite (inf : Inferior) (breakpointSite : BreakpointSite) :
    Inferior :=
  if sitesContains inf.breakpointSites breakpointSite.id then
    inf
  else
    let instructionLine := ptraceRead inf.mem breakpointSite.address.addr
    let savedInstruction := instructionLine % 256
    let newInstructionLine := instructionLine / 256 * 256 + INTERRUPT_INSTRUCTION
    { mem := ptraceWrite inf.mem breakpointSite.address.addr newInstructionLine,
      breakpointSites := sitesInsert inf.breakpointSites breakpointSite.id savedInstruction }

/-- `Inferior::disable_breakpoint_site`, translated exactly as written: the
entry is removed first, then the source re-checks `contains_key` on the id
(now necessarily absent) and returns early, so the trailing restore write is
kept here as the unreachable `else` branch it is in the source. -/
def Inferior.disableBreakpointSite (inf : Inferior) (breakpointSite : BreakpointSite) :
    Inferior :=
  match sitesLookup inf.breakpointSites breakpointSite.id with
  | none => inf
  | some savedInstruction =>
    let inf' : Inferior :=
      { inf with breakpointSites := sitesRemove inf.breakpointSites breakpointSite.id }
    if ¬ sitesContains inf'.breakpointSites breakpointSite.id then
      inf'
    else
      let instructionLine := ptraceRead inf'.mem breakpointSite.address.addr
      let restoredLine := instructionLine / 256 * 256 + savedInstruction
      { inf' with mem := ptraceWrite inf'.mem breakpointSite.address.addr restoredLine }

/-! ## Process state and wait statuses -/

/-- `ProcessState` from `src/process/mod.rs`. -/
inductive ProcessState where
  | Unknown
  | Stopped
  | Running
  | Exited
  | Terminated
deriving DecidableEq

/-- `nix::sys::wait::WaitStatus`, restricted to the shapes the controller
distinguishes; every remaining variant (`PtraceEvent`, `PtraceSyscall`,
`Continued`, `StillAlive`) falls to the wildcard arm and is `other` here. -/
inductive WaitStatus where
  | exited (pid : Nat) (code : Int)
  | signaled (pid : Nat) (signal : Nat) (coreDump : Bool)
  | stopped (pid : Nat) (signal : Nat)
  | other
deriving DecidableEq

/-! ## Command history (`src/history.rs`) -/

/-- `CommandHistory`: the in-memory vector plus the on-disk append-only file,
modelled as the list of lines appended during the session. -/
structure CommandHistory where
  history : List String
  file : List String
deriving DecidableEq

/-- `CommandHistory::last_command`. -/
def CommandHistory.lastCommand (h : CommandHistory) : Option String :=
  h.history.getLast?

/-- `CommandHistory::add`: drop empty commands; drop a command equal to the
last in-memory entry; otherwise push it and append `cmd\n` to the file. -/
def CommandHistory.add (h : CommandHistory) (cmd : String) : CommandHistory :=
  if cmd = "" then h
  else
    let shouldAppend :=
      match h.history.getLast? with
      | some last => last != cmd
      | none => true
    if shouldAppend then
      { history := h.history ++ [cmd], file := h.file ++ [cmd] }
    else h

/-! ## Command parsing (`src/debugger/mod.rs`) -/

/-- Errors raised while turning a line into a `Command` (the source uses
`anyhow` messages; the three distinct failure shapes are kept). -/
inductive CmdError where
  | wrongArgumentCount
  | invalidNumber
  | unknownCommand
deriving DecidableEq

/-- `BreakpointCommand` from `src/debugger/mod.rs`. -/
inductive BreakpointCommand where
  | create (address : VirtualAddress)
  | delete (id : StoppointId)
  | enable (id : StoppointId)
  | disable (id : StoppointId)
deriving DecidableEq

/-- `Command` from `src/debugger/mod.rs`. -/
inductive Command where
  | run (args : List String)
  | cont
  | breakpoint (cmd : BreakpointCommand)
  | quit
deriving DecidableEq

/-- Decimal digits of `cs`, or `none` if some character is not an ASCII digit. -/
def parseDigits? : List Char → Option Nat → Option Nat
  | [], acc => acc
  | c :: cs, acc =>
    match acc with
    | none => none
    | some n => if c.isDigit then parseDigits? cs (some (n * 10 + (c.toNat - 48))) else none

/-- Rust `str::parse::<u64>`: optional leading `+`, one or more digits, value
within `u64` range. -/
def parseU64? (s : String) : Option Nat :=
  let cs :=
    match s.toList with
    | '+' :: rest => rest
    | cs => cs
  if cs.isEmpty then none
  else
    match parseDigits? cs (some 0) with
    | some n => if n < 2 ^ 64 then some n else none
    | none => none

/-- Rust `str::parse::<i32>`: optional sign, one or more digits, value within
`i32` range. -/
def parseI32? (s : String) : Option Int :=
  let (neg, cs) :=
    match s.toList with
    | '+' :: rest => (false, rest)
    | '-' :: rest => (true, rest)
    | cs => (false, cs)
  if cs.isEmpty then none
  else
    match parseDigits? cs (some 0) with
    | some n =>
      let v : Int := if neg then -(n : Int) else (n : Int)
      if -(2 ^ 31) ≤ v ∧ v < 2 ^ 31 then some v else none
    | none => none

/-- Helper for `str::split_whitespace`: maximal runs of non-whitespace. -/
def splitWsAux : List Char → List Char → List (List Char)
  | [], acc => if acc.isEmpty then [] else [acc.reverse]
  | c :: cs, acc =>
    if c.isWhitespace then
      if acc.isEmpty then splitWsAux cs [] else acc.reverse :: splitWsAux cs []
    else
      splitWsAux cs (c :: acc)

/-- Rust `str::split_whitespace` (ASCII whitespace; the Unicode cases do not
occur in debugger commands). -/
def splitWhitespace (s : String) : List String :=
  (splitWsAux s.toList []).map fun cs => String.mk cs

/-- `TryFrom<Vec<String>> for VirtualAddress`: exactly one token, parsed `u64`. -/
def VirtualAddress.tryFromArgs (v : List String) : Except CmdError VirtualAddress :=
  match v with
  | [s] =>
    match parseU64? s with
    | some address => .ok { address := address }
    | none => .error .invalidNumber
  | _ => .error .wrongArgumentCount

/-- `TryFrom<Vec<String>> for StoppointId`: exactly one token, parsed `i32`. -/
def StoppointId.tryFromArgs (v : List String) : Except CmdError StoppointId :=
  match v with
  | [s] =>
    match parseI32? s with
    | some i => .ok { id := i }
    | none => .error .invalidNumber
  | _ => .error .wrongArgumentCount

/-- Rust `str::to_lowercase` on a single character, restricted to ASCII (the
verbs compared against are all ASCII). -/
def asciiToLower (c : Char) : Char :=
  if 'A' ≤ c ∧ c ≤ 'Z' then Char.ofNat (c.toNat + 32) else c

/-- Rust `str::to_lowercase` (ASCII subset). -/
def lowercase (s : String) : String :=
  String.mk (s.toList.map asciiToLower)

/-- `TryFrom<String> for Command`: split on whitespace, lower-case the first
token as the verb, parse the remaining tokens per verb. -/
def Command.tryFrom (value : String) : Except CmdError Command :=
  let words := splitWhitespace value
  let cmd := lowercase (words.headD "")
  let args := words.tail
  match cmd with
  | "run" => .ok (.run args)
  | "r" => .ok (.run args)
  | "continue" => .ok .cont
  | "c" => .ok .cont
  | "quit" => .ok .quit
  | "q" => .ok .quit
  | "break" => (VirtualAddress.tryFromArgs args).map fun a => .breakpoint (.create a)
  | "b" => (VirtualAddress.tryFromArgs args).map fun a => .breakpoint (.create a)
  | "delete" => (StoppointId.tryFromArgs args).map fun i => .breakpoint (.delete i)
  | "enable" => (StoppointId.tryFromArgs args).map fun i => .breakpoint (.enable i)
  | "disable" => (StoppointId.tryFromArgs args).map fun i => .breakpoint (.disable i)
  | _ => .error .unknownCommand

/-- Where `Debugger::next` ends up with respect to history: a silent no-op
(empty line, empty history), a parse failure, or a parsed command handed to
`dispatch_command` (which never touches the history). -/
inductive NextAction where
  | noop
  | parseError (e : CmdError)
  | dispatch (c : Command)
deriving DecidableEq

/-- `Debugger::next`, up to `dispatch_command`: an empty line replays the last
history entry without recording anything; a non-empty line is recorded via
`CommandHistory::add` first and only then parsed. -/
def Debugger.next (h : CommandHistory) (line : String) : CommandHistory × NextAction :=
  if line = "" then
    match h.lastCommand with
    | none => (h, .noop)
    | some cmd =>
      match Command.tryFrom cmd with
      | .ok c => (h, .dispatch c)
      | .error e => (h, .parseError e)
  else
    let h' := h.add line
    match Command.tryFrom line with
    | .ok c => (h', .dispatch c)
    | .error e => (h', .parseError e)

/-! ## Register values and formats (`src/process/register_info.rs`) -/

/-- `RegisterFormat`: the strum discriminant set of `RegisterValue`. -/
inductive RegisterFormat where
  | uint8
  | uint16
  | uint32
  | uint64
  | int8
  | int16
  | int32
  | int64
  | float
  | double
  | longDouble
  | byte64
  | byte128
deriving DecidableEq

/-- `RegisterValue`: tagged register contents.  Unsigned payloads are `Nat`,
signed ones `Int`; the `f32`/`f64` variants (never produced by the snapshot
read path) carry their IEEE bit patterns; the blob variants carry byte lists
(10, 8 and 16 bytes respectively). -/
inductive RegisterValue where
  | uint8 (v : Nat)
  | uint16 (v : Nat)
  | uint32 (v : Nat)
  | uint64 (v : Nat)
  | int8 (v : Int)
  | int16 (v : Int)
  | int32 (v : Int)
  | int64 (v : Int)
  | float (bits : Nat)
  | double (bits : Nat)
  | longDouble (bytes : List Nat)
  | byte64 (bytes : List Nat)
  | byte128 (bytes : List Nat)
deriving DecidableEq

/-- The discriminant of a `RegisterValue` (strum's `EnumDiscriminants`). -/
def RegisterValue.format : RegisterValue → RegisterFormat
  | .uint8 _ => .uint8
  | .uint16 _ => .uint16
  | .uint32 _ => .uint32
  | .uint64 _ => .uint64
  | .int8 _ => .int8
  | .int16 _ => .int16
  | .int32 _ => .int32
  | .int64 _ => .int64
  | .float _ => .float
  | .double _ => .double
  | .longDouble _ => .longDouble
  | .byte64 _ => .byte64
  | .byte128 _ => .byte128

/-- `Register`: the registers handled by `RegisterSnapshot::get_value` in
`src/process/registers.rs` (the x86-64 set; the snapshot reader names the
floating-point instruction/data pointers `FIP`/`FDP`, matching the `rip`/`rdp`
declarations spelled `FRIP`/`FRDP` in `register_info.rs`). -/
inductive Register where
  | RAX | RDX | RCX | RBX | RSI | RDI | RBP | RSP
  | R8 | R9 | R10 | R11 | R12 | R13 | R14 | R15
  | RIP | EFLAGS | CS | FS | GS | SS | DS | ES | ORIGRAX
  | EAX | EDX | ECX | EBX | ESI | EDI | EBP | ESP
  | R8D | R9D | R10D | R11D | R12D | R13D | R14D | R15D
  | AX | DX | CX | SI | DI | BP | SP
  | R8W | R9W | R10W | R11W | R12W | R13W | R14W | R15W
  | AH | DH | CH | BH
  | AL | DL | CL | BL | SIL | DIL | BPL | SPL
  | R8B | R9B | R10B | R11B | R12B | R13B | R14B | R15B
  | FCW | FSW | FTW | FOP | FIP | FDP | MXCSR | MXCSR_MASK
  | ST0 | ST1 | ST2 | ST3 | ST4 | ST5 | ST6 | ST7
  | XMM0 | XMM1 | XMM2 | XMM3 | XMM4 | XMM5 | XMM6 | XMM7
  | XMM8 | XMM9 | XMM10 | XMM11 | XMM12 | XMM13 | XMM14 | XMM15
  | DR0 | DR1 | DR2 | DR3 | DR4 | DR5 | DR6 | DR7
deriving DecidableEq

/-- The `format` column of `REGISTER_DECLS` in `register_info.rs`: the
catalog's declared display format for each register. -/
def registerDeclFormat : Register → RegisterFormat
  | .RAX | .RDX | .RCX | .RBX | .RSI | .RDI | .RBP | .RSP
  | .R8 | .R9 | .R10 | .R11 | .R12 | .R13 | .R14 | .R15
  | .RIP | .EFLAGS | .CS | .FS | .GS | .SS | .DS | .ES | .ORIGRAX => .uint64
  | .EAX | .EDX | .ECX | .EBX | .ESI | .EDI | .EBP | .ESP
  | .R8D | .R9D | .R10D | .R11D | .R12D | .R13D | .R14D | .R15D => .uint32
  | .AX | .DX | .CX | .SI | .DI | .BP | .SP
  | .R8W | .R9W | .R10W | .R11W | .R12W | .R13W | .R14W | .R15W => .uint16
  | .AH | .DH | .CH | .BH => .uint8
  | .AL | .DL | .CL | .BL | .SIL | .DIL | .BPL | .SPL
  | .R8B | .R9B | .R10B | .R11B | .R12B | .R13B | .R14B | .R15B => .uint8
  | .FCW | .FSW | .FTW | .FOP | .FIP | .FDP | .MXCSR | .MXCSR_MASK => .uint16
  | .ST0 | .ST1 | .ST2 | .ST3 | .ST4 | .ST5 | .ST6 | .ST7 => .longDouble
  | .XMM0 | .XMM1 | .XMM2 | .XMM3 | .XMM4 | .XMM5 | .XMM6 | .XMM7
  | .XMM8 | .XMM9 | .XMM10 | .XMM11 | .XMM12 | .XMM13 | .XMM14 | .XMM15 => .byte128
  | .DR0 | .DR1 | .DR2 | .DR3 | .DR4 | .DR5 | .DR6 | .DR7 => .uint64

/-! ## Register snapshot (`src/process/registers.rs`) -/

/-- `libc::user_regs_struct`: the general-purpose register file (`u64` each). -/
structure UserRegsStruct where
  rax : Nat
  rdx : Nat
  rcx : Nat
  rbx : Nat
  rsi : Nat
  rdi : Nat
  rbp : Nat
  rsp : Nat
  r8 : Nat
  r9 : Nat
  r10 : Nat
  r11 : Nat
  r12 : Nat
  r13 : Nat
  r14 : Nat
  r15 : Nat
  rip : Nat
  eflags : Nat
  cs : Nat
  fs : Nat
  gs : Nat
  ss : Nat
  ds : Nat
  es : Nat
  orig_rax : Nat

/-- `libc::user_fpregs_struct`: the scalar control words (`u16`/`u32`/`u64`),
the x87/MMX bank `st_space : [u32; 32]` and the XMM bank
`xmm_space : [u32; 64]`, the arrays modelled as index functions. -/
structure UserFpregsStruct where
  cwd : Nat
  swd : Nat
  ftw : Nat
  fop : Nat
  rip : Nat
  rdp : Nat
  mxcsr : Nat
  mxcr_mask : Nat
  st_space : Nat → Nat
  xmm_space : Nat → Nat

/-- `RegisterSnapshot`: pid plus copies of the general-purpose struct, the
floating-point struct and the eight `u64` debug registers. -/
structure RegisterSnapshot where
  pid : Nat
  user_gp : UserRegsStruct
  user_fp : UserFpregsStruct
  debug_regs : Nat → Nat

/-- Helper `take_long_double` from `get_value`: bytes of four consecutive
little-endian `u32` words of `st_space`, truncated to 10 bytes. -/
def takeLongDouble (st_space : Nat → Nat) (idx : Nat) : RegisterValue :=
  .longDouble ((List.range 10).map fun j => st_space (idx * 4 + j / 4) / 256 ^ (j % 4) % 256)

/-- Helper `take_xmm` from `get_value`: 16 bytes of four consecutive
little-endian `u32` words of `xmm_space`. -/
def takeXmm (xmm_space : Nat → Nat) (idx : Nat) : RegisterValue :=
  .byte128 ((List.range 16).map fun j => xmm_space (idx * 4 + j / 4) / 256 ^ (j % 4) % 256)

/-- `RegisterSnapshot::get_value`: pure lookup into the snapshot copies.
Rust's truncating casts become explicit reductions: `as u32 as u64` is
`% 2^32`, `as u16 as u64` is `% 2^16`, `& 0xff` is `% 256`, and
`(x >> 8) & 0xff` is `x / 256 % 256`. -/
def RegisterSnapshot.getValue (s : RegisterSnapshot) (register : Register) : RegisterValue :=
  match register with
  | .RAX => .uint64 s.user_gp.rax
  | .RDX => .uint64 s.user_gp.rdx
  | .RCX => .uint64 s.user_gp.rcx
  | .RBX => .uint64 s.user_gp.rbx
  | .RSI => .uint64 s.user_gp.rsi
  | .RDI => .uint64 s.user_gp.rdi
  | .RBP => .uint64 s.user_gp.rbp
  | .RSP => .uint64 s.user_gp.rsp
  | .R8 => .uint64 s.user_gp.r8
  | .R9 => .uint64 s.user_gp.r9
  | .R10 => .uint64 s.user_gp.r10
  | .R11 => .uint64 s.user_gp.r11
  | .R12 => .uint64 s.user_gp.r12
  | .R13 => .uint64 s.user_gp.r13
  | .R14 => .uint64 s.user_gp.r14
  | .R15 => .uint64 s.user_gp.r15
  | .RIP => .uint64 s.user_gp.rip
  | .EFLAGS => .uint64 s.user_gp.eflags
  | .CS => .uint64 s.user_gp.cs
  | .FS => .uint64 s.user_gp.fs
  | .GS => .uint64 s.user_gp.gs
  | .SS => .uint64 s.user_gp.ss
  | .DS => .uint64 s.user_gp.ds
  | .ES => .uint64 s.user_gp.es
  | .ORIGRAX => .uint64 s.user_gp.orig_rax
  | .EAX => .uint64 (s.user_gp.rax % 2 ^ 32)
  | .EDX => .uint64 (s.user_gp.rdx % 2 ^ 32)
  | .ECX => .uint64 (s.user_gp.rcx % 2 ^ 32)
  | .EBX => .uint64 (s.user_gp.rbx % 2 ^ 32)
  | .ESI => .uint64 (s.user_gp.rsi % 2 ^ 32)
  | .EDI => .uint64 (s.user_gp.rdi % 2 ^ 32)
  | .EBP => .uint64 (s.user_gp.rbp % 2 ^ 32)
  | .ESP => .uint64 (s.user_gp.rsp % 2 ^ 32)
  | .R8D => .uint64 (s.user_gp.r8 % 2 ^ 32)
  | .R9D => .uint64 (s.user_gp.r9 % 2 ^ 32)
  | .R10D => .uint64 (s.user_gp.r10 % 2 ^ 32)
  | .R11D => .uint64 (s.user_gp.r11 % 2 ^ 32)
  | .R12D => .uint64 (s.user_gp.r12 % 2 ^ 32)
  | .R13D => .uint64 (s.user_gp.r13 % 2 ^ 32)
  | .R14D => .uint64 (s.user_gp.r14 % 2 ^ 32)
  | .R15D => .uint64 (s.user_gp.r15 % 2 ^ 32)
  | .AX => .uint64 (s.user_gp.rax % 2 ^ 16)
  | .DX => .uint64 (s.user_gp.rdx % 2 ^ 16)
  | .CX => .uint64 (s.user_gp.rcx % 2 ^ 16)
  | .SI => .uint64 (s.user_gp.rsi % 2 ^ 16)
  | .DI => .uint64 (s.user_gp.rdi % 2 ^ 16)
  | .BP => .uint64 (s.user_gp.rbp % 2 ^ 16)
  | .SP => .uint64 (s.user_gp.rsp % 2 ^ 16)
  | .R8W => .uint64 (s.user_gp.r8 % 2 ^ 16)
  | .R9W => .uint64 (s.user_gp.r9 % 2 ^ 16)
  | .R10W => .uint64 (s.user_gp.r10 % 2 ^ 16)
  | .R11W => .uint64 (s.user_gp.r11 % 2 ^ 16)
  | .R12W => .uint64 (s.user_gp.r12 % 2 ^ 16)
  | .R13W => .uint64 (s.user_gp.r13 % 2 ^ 16)
  | .R14W => .uint64 (s.user_gp.r14 % 2 ^ 16)
  | .R15W => .uint64 (s.user_gp.r15 % 2 ^ 16)
  | .AH => .uint64 (s.user_gp.rax / 256 % 256)
  | .DH => .uint64 (s.user_gp.rdx / 256 % 256)
  | .CH => .uint64 (s.user_gp.rcx / 256 % 256)
  | .BH => .uint64 (s.user_gp.rbx / 256 % 256)
  | .AL => .uint64 (s.user_gp.rax % 256)
  | .DL => .uint64 (s.user_gp.rdx % 256)
  | .CL => .uint64 (s.user_gp.rcx % 256)
  | .BL => .uint64 (s.user_gp.rbx % 256)
  | .SIL => .uint64 (s.user_gp.rsi % 256)
  | .DIL => .uint64 (s.user_gp.rdi % 256)
  | .BPL => .uint64 (s.user_gp.rbp % 256)
  | .SPL => .uint64 (s.user_gp.rsp % 256)
  | .R8B => .uint64 (s.user_gp.r8 % 256)
  | .R9B => .uint64 (s.user_gp.r9 % 256)
  | .R10B => .uint64 (s.user_gp.r10 % 256)
  | .R11B => .uint64 (s.user_gp.r11 % 256)
  | .R12B => .uint64 (s.user_gp.r12 % 256)
  | .R13B => .uint64 (s.user_gp.r13 % 256)
  | .R14B => .uint64 (s.user_gp.r14 % 256)
  | .R15B => .uint64 (s.user_gp.r15 % 256)
  | .FCW => .uint64 s.user_fp.cwd
  | .FSW => .uint64 s.user_fp.swd
  | .FTW => .uint64 s.user_fp.ftw
  | .FOP => .uint64 s.user_fp.fop
  | .FIP => .uint64 s.user_fp.rip
  | .FDP => .uint64 s.user_fp.rdp
  | .MXCSR => .uint64 s.user_fp.mxcsr
  | .MXCSR_MASK => .uint64 s.user_fp.mxcr_mask
  | .ST0 => takeLongDouble s.user_fp.st_space 0
  | .ST1 => takeLongDouble s.user_fp.st_space 1
  | .ST2 => takeLongDouble s.user_fp.st_space 2
  | .ST3 => takeLongDouble s.user_fp.st_space 3
  | .ST4 => takeLongDouble s.user_fp.st_space 4
  | .ST5 => takeLongDouble s.user_fp.st_space 5
  | .ST6 => takeLongDouble s.user_fp.st_space 6
  | .ST7 => takeLongDouble s.user_fp.st_space 7
  | .XMM0 => takeXmm s.user_fp.xmm_space 0
  | .XMM1 => takeXmm s.user_fp.xmm_space 1
  | .XMM2 => takeXmm s.user_fp.xmm_space 2
  | .XMM3 => takeXmm s.user_fp.xmm_space 3
  | .XMM4 => takeXmm s.user_fp.xmm_space 4
  | .XMM5 => takeXmm s.user_fp.xmm_space 5
  | .XMM6 => takeXmm s.user_fp.xmm_space 6
  | .XMM7 => takeXmm s.user_fp.xmm_space 7
  | .XMM8 => takeXmm s.user_fp.xmm_space 8
  | .XMM9 => takeXmm s.user_fp.xmm_space 9
  | .XMM10 => takeXmm s.user_fp.xmm_space 10
  | .XMM11 => takeXmm s.user_fp.xmm_space 11
  | .XMM12 => takeXmm s.user_fp.xmm_space 12
  | .XMM13 => takeXmm s.user_fp.xmm_space 13
  | .XMM14 => takeXmm s.user_fp.xmm_space 14
  | .XMM15 => takeXmm s.user_fp.xmm_space 15
  | .DR0 => .uint64 (s.debug_regs 0)
  | .DR1 => .uint64 (s.debug_regs 1)
  | .DR2 => .uint64 (s.debug_regs 2)
  | .DR3 => .uint64 (s.debug_regs 3)
  | .DR4 => .uint64 (s.debug_regs 4)
  | .DR5 => .uint64 (s.debug_regs 5)
  | .DR6 => .uint64 (s.debug_regs 6)
  | .DR7 => .uint64 (s.debug_regs 7)

/-! ## Process controller (`src/process/mod.rs`) -/

/-- Failure shapes of the controller operations (the source uses `anyhow`
messages; `panicNoPid` stands for the `expect_pid` panic when no inferior
exists). -/
inductive ProcError where
  | stateError
  | panicNoPid
  | duplicateSite
  | notFound
deriving DecidableEq

/-- `Process`: the controller.  `cli_options`, the output ring, the channels
and the logging thread are I/O plumbing outside the verified logic.
`next_id` threads the global atomic `NEXT_ID` counter of
`breakpoint_site.rs` through the state. -/
structure Process where
  state : ProcessState
  target_process : Option Inferior
  registers : Option RegisterSnapshot
  breakpoint_sites : List BreakpointSite
  next_id : Int

/-- `Process::read_register`: map the optional snapshot through
`RegisterSnapshot::get_value`; no tracee access happens. -/
def Process.readRegister (p : Process) (register : Register) : Option RegisterValue :=
  p.registers.map fun snapshot => snapshot.getValue register

/-- `Process::resume`: requires `Stopped` or `Running`; `expect_pid` panics
when no inferior is present; then `ptrace::cont` and `state = Running`.
The register snapshot field is not touched. -/
def Process.resume (p : Process) : Except ProcError Unit × Process :=
  match p.state with
  | .Stopped | .Running =>
    match p.target_process with
    | none => (.error .panicNoPid, p)
    | some _ => (.ok (), { p with state := .Running })
  | _ => (.error .stateError, p)

/-- `Process::wait_on_signal`: classify the `waitpid` status into the state,
then, whenever the resulting state is `Stopped`, replace the snapshot with
the freshly read register files (`read_all_registers`), passed in here as
`fresh`. -/
def Process.waitOnSignal (p : Process) (waitStatus : WaitStatus) (fresh : RegisterSnapshot) :
    Process :=
  let st :=
    match waitStatus with
    | .exited _ _ => ProcessState.Exited
    | .signaled _ _ _ => ProcessState.Terminated
    | .stopped _ _ => ProcessState.Stopped
    | .other => p.state
  { p with
    state := st,
    registers := if st = .Stopped then some fresh else p.registers }

/-- `Process::create_breakpoint_site`: reject an address that already has a
site; otherwise construct the record (`BreakpointSite::new`, hence
`Disabled`), push a clone into the controller list, and return it. -/
def Process.createBreakpointSite (p : Process) (address : VirtualAddress) :
    Except ProcError BreakpointSite × Process :=
  if p.breakpoint_sites.any fun b => b.address == address then
    (.error .duplicateSite, p)
  else
    let b := BreakpointSite.new { id := p.next_id } address
    (.ok b,
      { p with
        breakpoint_sites := p.breakpoint_sites ++ [b],
        next_id := p.next_id + 1 })

/-- The `Enable(id)` arm's `for` loop over `breakpoint_sites`: each matching
site is enabled in the tracee (when one is live) and then marked enabled. -/
def enableLoopAux (i : StoppointId) :
    List BreakpointSite → Option Inferior → List BreakpointSite × Option Inferior
  | [], inferior => ([], inferior)
  | b :: rest, inferior =>
    if b.id == i then
      let inferior' :=
        match inferior with
        | some inf => some (inf.enableBreakpointSite b)
        | none => none
      let (rest', inferior'') := enableLoopAux i rest inferior'
      (b.enable :: rest', inferior'')
    else
      let (rest', inferior') := enableLoopAux i rest inferior
      (b :: rest', inferior')

/-- The `Disable(id)` arm's `for` loop, mirror image of `enableLoopAux`. -/
def disableLoopAux (i : StoppointId) :
    List BreakpointSite → Option Inferior → List BreakpointSite × Option Inferior
  | [], inferior => ([], inferior)
  | b :: rest, inferior =>
    if b.id == i then
      let inferior' :=
        match inferior with
        | some inf => some (inf.disableBreakpointSite b)
        | none => none
      let (rest', inferior'') := disableLoopAux i rest inferior'
      (b.disable :: rest', inferior'')
    else
      let (rest', inferior') := disableLoopAux i rest inferior
      (b :: rest', inferior')

/-- `Process::breakpoint_command`. -/
def Process.breakpointCommand (p : Process) (command : BreakpointCommand) :
    Except ProcError Unit × Process :=
  match command with
  | .create address =>
    match p.createBreakpointSite address with
    | (.error e, p') => (.error e, p')
    | (.ok b, p') =>
      match p'.target_process with
      | some inferior =>
        (.ok (), { p' with target_process := some (inferior.enableBreakpointSite b) })
      | none => (.ok (), p')
  | .delete i =>
    match p.breakpoint_sites.find? fun b => b.id == i with
    | none => (.error .notFound, p)
    | some b =>
      let p' :=
        match p.target_process with
        | some inferior => { p with target_process := some (inferior.disableBreakpointSite b) }
        | none => p
      (.ok (), { p' with breakpoint_sites := p'.breakpoint_sites.filter fun s => !(s.id == i) })
  | .enable i =>
    let (sites', inferior') := enableLoopAux i p.breakpoint_sites p.target_process
    (.ok (), { p with breakpoint_sites := sites', target_process := inferior' })
  | .disable i =>
    let (sites', inferior') := disableLoopAux i p.breakpoint_sites p.target_process
    (.ok (), { p with breakpoint_sites := sites', target_process := inferior' })

/-! ## Statement-side definitions and concrete fixtures -/

/-- The variant class `get_value` actually produces, register by register:
`LongDouble` for the x87 stack, `Byte128` for the XMM bank, and `Uint64` for
every other register (whatever width the catalog declares). -/
def readVariantOf : Register → RegisterFormat
  | .ST0 | .ST1 | .ST2 | .ST3 | .ST4 | .ST5 | .ST6 | .ST7 => .longDouble
  | .XMM0 | .XMM1 | .XMM2 | .XMM3 | .XMM4 | .XMM5 | .XMM6 | .XMM7
  | .XMM8 | .XMM9 | .XMM10 | .XMM11 | .XMM12 | .XMM13 | .XMM14 | .XMM15 => .byte128
  | _ => .uint64

/-- The most recently accepted entry after a run of `CommandHistory::add`
calls, starting from last entry `acc`: an empty command or a command equal to
the current last entry is dropped, anything else becomes the new last. -/
def lastAcceptedFrom : Option String → List String → Option String
  | acc, [] => acc
  | acc, c :: cs => lastAcceptedFrom (if c ≠ "" ∧ acc ≠ some c then some c else acc) cs

/-- An all-zero register snapshot. -/
def zeroSnapshot : RegisterSnapshot :=
  { pid := 0,
    user_gp :=
      { rax := 0, rdx := 0, rcx := 0, rbx := 0, rsi := 0, rdi := 0, rbp := 0, rsp := 0,
        r8 := 0, r9 := 0, r10 := 0, r11 := 0, r12 := 0, r13 := 0, r14 := 0, r15 := 0,
        rip := 0, eflags := 0, cs := 0, fs := 0, gs := 0, ss := 0, ds := 0, es := 0,
        orig_rax := 0 },
    user_fp :=
      { cwd := 0, swd := 0, ftw := 0, fop := 0, rip := 0, rdp := 0, mxcsr := 0,
        mxcr_mask := 0, st_space := fun _ => 0, xmm_space := fun _ => 0 },
    debug_regs := fun _ => 0 }

/-- Tracee memory holding byte `0x55` at address 4096 and zero elsewhere. -/
def mem4096 : Mem := fun a => if a = 4096 then 0x55 else 0

/-- A live inferior over `mem4096` with no active breakpoint site. -/
def inferior4096 : Inferior := { mem := mem4096, breakpointSites := [] }

/-- Breakpoint site 1 at address 4096. -/
def site4096 : BreakpointSite := { id := { id := 1 }, address := { address := 4096 }, state := .disabled }

/-- A controller stopped on a live inferior, holding a register snapshot. -/
def stoppedProcess : Process :=
  { state := .Stopped,
    target_process := some inferior4096,
    registers := some zeroSnapshot,
    breakpoint_sites := [],
    next_id := 1 }

/-- A controller stopped on a live inferior with no snapshot and no sites. -/
def createCexProcess : Process :=
  { state := .Stopped,
    target_process := some inferior4096,
    registers := none,
    breakpoint_sites := [],
    next_id := 1 }

/-- A detached controller holding one breakpoint record (id 1). -/
def oneSiteProcess : Process :=
  { state := .Unknown,
    target_process := none,
    registers := none,
    breakpoint_sites := [site4096],
    next_id := 2 }

/-- The empty command history. -/
def emptyHistory : CommandHistory := { history := [], file := [] }

/-! ## Helper lemmas -/

/-- Writing a word at `a` puts its low byte at `a`. -/
theorem byteAt_ptraceWrite_self (m : Mem) (a w : Nat) :
    byteAt (ptraceWrite m a w) a = w % 256 := by
  simp [byteAt, ptraceWrite, Nat.mod_mod_of_dvd]

/-- Enabling a breakpoint site that is not yet active leaves the `int3`
opcode in the byte at the site's address. -/
theorem byteAt_enableBreakpointSite (inf : Inferior) (b : BreakpointSite)
    (h : sitesContains inf.breakpointSites b.id = false) :
    byteAt (inf.enableBreakpointSite b).mem b.address.addr = INTERRUPT_INSTRUCTION := by
  simp only [Inferior.enableBreakpointSite, h, Bool.false_eq_true, if_false]
  rw [byteAt_ptraceWrite_self]
  simp [INTERRUPT_INSTRUCTION]
  omega

/-- The `Enable(id)` loop is the identity when no site carries the id. -/
theorem enableLoopAux_no_match (i : StoppointId) (sites : List BreakpointSite)
    (inferior : Option Inferior) (h : ∀ b ∈ sites, (b.id == i) = false) :
    enableLoopAux i sites inferior = (sites, inferior) := by
  induction sites with
  | nil => rfl
  | cons b rest ih =>
    have hb := h b (List.mem_cons_self ..)
    have hrest : ∀ x ∈ rest, (x.id == i) = false := fun x hx => h x (List.mem_cons_of_mem _ hx)
    simp [enableLoopAux, hb, ih hrest]

/-- The `Disable(id)` loop is the identity when no site carries the id. -/
theorem disableLoopAux_no_match (i : StoppointId) (sites : List BreakpointSite)
    (inferior : Option Inferior) (h : ∀ b ∈ sites, (b.id == i) = false) :
    disableLoopAux i sites inferior = (sites, inferior) := by
  induction sites with
  | nil => rfl
  | cons b rest ih =>
    have hb := h b (List.mem_cons_self ..)
    have hrest : ∀ x ∈ rest, (x.id == i) = false := fun x hx => h x (List.mem_cons_of_mem _ hx)
    simp [disableLoopAux, hb, ih hrest]

/-- `CommandHistory::add` on an accepted command appends to both the
in-memory vector and the file. -/
theorem CommandHistory.add_accepted (h : CommandHistory) (c : String) (hc : c ≠ "")
    (hl : h.lastCommand ≠ some c) :
    h.add c = { history := h.history ++ [c], file := h.file ++ [c] } := by
  simp only [CommandHistory.add, if_neg hc]
  cases hgl : h.history.getLast? with
  | none => simp
  | some last =>
    have hne : last ≠ c := fun heq => hl (by rw [CommandHistory.lastCommand, hgl, heq])
    simp [hne]

/-- `CommandHistory::add` drops the empty command. -/
theorem CommandHistory.add_empty (h : CommandHistory) : h.add "" = h := by
  simp [CommandHistory.add]

/-- `CommandHistory::add` drops a command equal to the last entry. -/
theorem CommandHistory.add_dup (h : CommandHistory) (c : String)
    (hl : h.lastCommand = some c) : h.add c = h := by
  by_cases hc : c = ""
  · rw [hc]; exact h.add_empty
  · have hgl : h.history.getLast? = some c := hl
    simp [CommandHistory.add, hc, hgl]

/-- Appending one element moves `getLast?` onto it. -/
theorem getLast?_append_singleton {α : Type} (l : List α) (c : α) :
    (l ++ [c]).getLast? = some c := by
  rw [List.getLast?_concat]

/-! ## Claim theorems -/

/-- Claim C1 (the code contradicts it): starting from a byte `0x55` at
address 4096 with no active site, a successful `enable_breakpoint_site`
writes `0xCC`, and the following successful `disable_breakpoint_site`
removes the map entry yet leaves `0xCC` in place — the tracee's byte does
not return to its pre-enable value, because the restore write in
`disable_breakpoint_site` sits behind a `!contains_key` re-check that is
always true right after the `remove`. -/
theorem disable_leaves_int3_in_memory :
    byteAt inferior4096.mem 4096 = 0x55 ∧
    byteAt (inferior4096.enableBreakpointSite site4096).mem 4096 = 0xCC ∧
    ((inferior4096.enableBreakpointSite site4096).disableBreakpointSite
        site4096).breakpointSites = [] ∧
    byteAt ((inferior4096.enableBreakpointSite site4096).disableBreakpointSite
        site4096).mem 4096 = 0xCC :=
  ⟨rfl, by decide, by decide, by decide⟩

/-- Claim C2 counterexample: from a Stopped controller holding a snapshot, a
successful `resume` leaves the snapshot in place, so `read_register` still
returns `Some` — and it still does after `wait_on_signal` observes the exit —
contradicting the claim that every read after a resume returns `None` until
the next observed stop. -/
theorem resume_keeps_stale_snapshot_cex :
    stoppedProcess.resume.1 = .ok () ∧
    stoppedProcess.resume.2.state = .Running ∧
    stoppedProcess.resume.2.readRegister .RIP = some (.uint64 0) ∧
    (stoppedProcess.resume.2.waitOnSignal (.exited 7 0) zeroSnapshot).state = .Exited ∧
    (stoppedProcess.resume.2.waitOnSignal (.exited 7 0) zeroSnapshot).readRegister .RIP
      = some (.uint64 0) ∧
    some (RegisterValue.uint64 0) ≠ (none : Option RegisterValue) :=
  ⟨rfl, rfl, rfl, rfl, rfl, by decide⟩

/-- Claim C2 (amended): a successful `resume` from Stopped sets the state to
Running but does not invalidate the register snapshot: `read_register`
afterwards still answers from the last snapshot, and it continues to do so
after a wait observes the exit (the snapshot is only replaced on the next
observed stop). -/
theorem resume_preserves_registers (p : Process) (inf : Inferior) (r : Register)
    (pid : Nat) (code : Int) (fresh : RegisterSnapshot)
    (hstop : p.state = .Stopped) (hinf : p.target_process = some inf) :
    p.resume = (.ok (), { p with state := .Running }) ∧
    ({ p with state := ProcessState.Running } : Process).registers = p.registers ∧
    ({ p with state := ProcessState.Running } : Process).readRegister r = p.readRegister r ∧
    (({ p with state := ProcessState.Running } : Process).waitOnSignal
        (.exited pid code) fresh).state = .Exited ∧
    (({ p with state := ProcessState.Running } : Process).waitOnSignal
        (.exited pid code) fresh).registers = p.registers := by
  refine ⟨?_, rfl, rfl, rfl, rfl⟩
  simp [Process.resume, hstop, hinf]

/-- Witness for `resume_preserves_registers` at a concrete Stopped controller. -/
theorem resume_preserves_registers_witness :
    stoppedProcess.resume = (.ok (), { stoppedProcess with state := .Running }) ∧
    ({ stoppedProcess with state := ProcessState.Running } : Process).registers
      = stoppedProcess.registers ∧
    ({ stoppedProcess with state := ProcessState.Running } : Process).readRegister .RIP
      = stoppedProcess.readRegister .RIP ∧
    (({ stoppedProcess with state := ProcessState.Running } : Process).waitOnSignal
        (.exited 7 0) zeroSnapshot).state = .Exited ∧
    (({ stoppedProcess with state := ProcessState.Running } : Process).waitOnSignal
        (.exited 7 0) zeroSnapshot).registers = stoppedProcess.registers :=
  resume_preserves_registers stoppedProcess inferior4096 .RIP 7 0 zeroSnapshot rfl rfl

/-- Claim C3: `wait_on_signal` classifies the wait status exactly — Exited
yields state Exited, Signaled yields Terminated, Stopped yields Stopped, any
other status leaves the state unchanged — and whenever the resulting state is
Stopped (in particular on every transition into Stopped) the snapshot is
replaced by the freshly read register files. -/
theorem wait_on_signal_classification (p : Process) (fresh : RegisterSnapshot)
    (pid : Nat) (code : Int) (sig : Nat) (core : Bool) :
    (p.waitOnSignal (.exited pid code) fresh).state = .Exited ∧
    (p.waitOnSignal (.signaled pid sig core) fresh).state = .Terminated ∧
    (p.waitOnSignal (.stopped pid sig) fresh).state = .Stopped ∧
    (p.waitOnSignal .other fresh).state = p.state ∧
    (p.waitOnSignal (.stopped pid sig) fresh).registers = some fresh :=
  ⟨rfl, rfl, rfl, rfl, rfl⟩

/-- Claim C4 counterexample: a successful `Create(4096)` against a live
inferior stores a breakpoint record whose state is `Disabled` — `is_enabled`
is false — contradicting "the record is marked enabled". -/
theorem create_breakpoint_record_not_enabled_cex :
    (createCexProcess.breakpointCommand (.create { address := 4096 })).1 = .ok () ∧
    (createCexProcess.breakpointCommand (.create { address := 4096 })).2.breakpoint_sites
      = [{ id := { id := 1 }, address := { address := 4096 }, state := .disabled }] ∧
    ({ id := { id := 1 }, address := { address := 4096 },
        state := StoppointState.disabled } : BreakpointSite).isEnabled = false :=
  ⟨rfl, by decide, rfl⟩

/-- Claim C4 (amended): a successful `Create(addr)` appends a record that is
marked disabled (`BreakpointSite::new` starts `Disabled` and the Create arm
never calls `enable` on the stored record), while, with a live inferior, the
site is nevertheless enabled in the tracee: the saved-byte map gains the id
and the byte at the address becomes `int3`. -/
theorem create_breakpoint_disabled_record (p : Process) (a : VirtualAddress) (inf : Inferior)
    (hfree : (p.breakpoint_sites.any fun b => b.address == a) = false)
    (hinf : p.target_process = some inf) :
    (p.breakpointCommand (.create a)).1 = .ok () ∧
    (p.breakpointCommand (.create a)).2.breakpoint_sites
      = p.breakpoint_sites ++ [BreakpointSite.new { id := p.next_id } a] ∧
    (BreakpointSite.new { id := p.next_id } a).state = .disabled ∧
    (p.breakpointCommand (.create a)).2.target_process
      = some (inf.enableBreakpointSite (BreakpointSite.new { id := p.next_id } a)) ∧
    (sitesContains inf.breakpointSites { id := p.next_id } = false →
      byteAt (inf.enableBreakpointSite (BreakpointSite.new { id := p.next_id } a)).mem a.addr
        = INTERRUPT_INSTRUCTION) := by
  refine ⟨?_, ?_, rfl, ?_, fun hc => byteAt_enableBreakpointSite inf _ hc⟩ <;>
    simp [Process.breakpointCommand, Process.createBreakpointSite, hfree, hinf]

/-- Witness for `create_breakpoint_disabled_record` at a live inferior with a
fresh site map, discharging the nested hypothesis as well. -/
theorem create_breakpoint_disabled_record_witness :
    (createCexProcess.breakpointCommand (.create { address := 4096 })).1 = .ok () ∧
    (createCexProcess.breakpointCommand (.create { address := 4096 })).2.breakpoint_sites
      = createCexProcess.breakpoint_sites
          ++ [BreakpointSite.new { id := createCexProcess.next_id } { address := 4096 }] ∧
    (BreakpointSite.new { id := createCexProcess.next_id } { address := 4096 }).state
      = .disabled ∧
    (createCexProcess.breakpointCommand (.create { address := 4096 })).2.target_process
      = some (inferior4096.enableBreakpointSite
          (BreakpointSite.new { id := createCexProcess.next_id } { address := 4096 })) ∧
    byteAt (inferior4096.enableBreakpointSite
        (BreakpointSite.new { id := createCexProcess.next_id }
          { address := 4096 })).mem (VirtualAddress.addr { address := 4096 })
      = INTERRUPT_INSTRUCTION := by
  obtain ⟨h1, h2, h3, h4, h5⟩ :=
    create_breakpoint_disabled_record createCexProcess { address := 4096 } inferior4096 rfl rfl
  exact ⟨h1, h2, h3, h4, h5 rfl⟩

/-- Claim C5 counterexample: `Enable(99)` with no breakpoint of id 99 returns
success and leaves the controller untouched, contradicting the claim that it
fails with a NotFound error. -/
theorem enable_unknown_id_succeeds_cex :
    oneSiteProcess.breakpointCommand (.enable { id := 99 }) = (.ok (), oneSiteProcess) ∧
    (.ok () : Except ProcError Unit) ≠ .error .notFound :=
  ⟨rfl, by simp⟩

/-- Claim C5 (amended): with an unknown breakpoint id, `Delete(id)` fails
with NotFound and leaves the controller unchanged, while `Enable(id)` and
`Disable(id)` return success and leave the controller unchanged (their loops
simply match nothing). -/
theorem unknown_breakpoint_id_behaviour (p : Process) (i : StoppointId)
    (hnone : (p.breakpoint_sites.find? fun b => b.id == i) = none) :
    p.breakpointCommand (.delete i) = (.error .notFound, p) ∧
    p.breakpointCommand (.enable i) = (.ok (), p) ∧
    p.breakpointCommand (.disable i) = (.ok (), p) := by
  have hall : ∀ b ∈ p.breakpoint_sites, (b.id == i) = false := by
    intro b hb
    have hnb := List.find?_eq_none.mp hnone b hb
    simpa using hnb
  refine ⟨?_, ?_, ?_⟩
  · simp [Process.breakpointCommand, hnone]
  · simp [Process.breakpointCommand, enableLoopAux_no_match i _ _ hall]
  · simp [Process.breakpointCommand, disableLoopAux_no_match i _ _ hall]

/-- Witness for `unknown_breakpoint_id_behaviour` on a controller holding
only breakpoint id 1, queried with id 99. -/
theorem unknown_breakpoint_id_behaviour_witness :
    oneSiteProcess.breakpointCommand (.delete { id := 99 }) = (.error .notFound, oneSiteProcess) ∧
    oneSiteProcess.breakpointCommand (.enable { id := 99 }) = (.ok (), oneSiteProcess) ∧
    oneSiteProcess.breakpointCommand (.disable { id := 99 }) = (.ok (), oneSiteProcess) :=
  unknown_breakpoint_id_behaviour oneSiteProcess { id := 99 } rfl

/-- Claim C6: after a successful `create_breakpoint_site(a)`, a second
`create_breakpoint_site(a)` returns the duplicate error and leaves the
controller's breakpoint set unchanged — exactly one site at `a` remains. -/
theorem duplicate_create_rejected (p : Process) (a : VirtualAddress)
    (hfree : (p.breakpoint_sites.any fun b => b.address == a) = false) :
    (p.createBreakpointSite a).1 = .ok (BreakpointSite.new { id := p.next_id } a) ∧
    ((p.createBreakpointSite a).2.createBreakpointSite a).1 = .error .duplicateSite ∧
    ((p.createBreakpointSite a).2.createBreakpointSite a).2 = (p.createBreakpointSite a).2 ∧
    ((p.createBreakpointSite a).2.breakpoint_sites.filter fun b => b.address == a).length
      = 1 := by
  have hfilter : p.breakpoint_sites.filter (fun b => b.address == a) = [] := by
    refine List.filter_eq_nil_iff.mpr fun b hb => ?_
    have := List.any_eq_false.mp hfree b hb
    simpa using this
  refine ⟨?_, ?_, ?_, ?_⟩ <;>
    simp [Process.createBreakpointSite, hfree, List.any_append, List.filter_append, hfilter,
      BreakpointSite.new]

/-- Witness for `duplicate_create_rejected` at a controller with no site at
address 8192. -/
theorem duplicate_create_rejected_witness :
    (oneSiteProcess.createBreakpointSite { address := 8192 }).1
      = .ok (BreakpointSite.new { id := oneSiteProcess.next_id } { address := 8192 }) ∧
    ((oneSiteProcess.createBreakpointSite { address := 8192 }).2.createBreakpointSite
        { address := 8192 }).1 = .error .duplicateSite ∧
    ((oneSiteProcess.createBreakpointSite { address := 8192 }).2.createBreakpointSite
        { address := 8192 }).2 = (oneSiteProcess.createBreakpointSite { address := 8192 }).2 ∧
    ((oneSiteProcess.createBreakpointSite { address := 8192 }).2.breakpoint_sites.filter
        fun b => b.address == { address := 8192 }).length = 1 :=
  duplicate_create_rejected oneSiteProcess { address := 8192 } rfl

/-- Claim C7 counterexample: the non-empty line `bogus` fails to parse, yet
`Debugger::next` has already recorded it in the command history (memory and
file) before returning the parse error — the history is not unchanged. -/
theorem unparsed_line_recorded_cex :
    Command.tryFrom "bogus" = .error .unknownCommand ∧
    Debugger.next emptyHistory "bogus"
      = ({ history := ["bogus"], file := ["bogus"] }, .parseError .unknownCommand) ∧
    ({ history := ["bogus"], file := ["bogus"] } : CommandHistory) ≠ emptyHistory :=
  ⟨rfl, rfl, by decide⟩

/-- Claim C7 (amended): a non-empty line that fails to parse is passed to
`CommandHistory::add` before the dispatcher returns the parse error, so the
history afterwards is `h.add line`: the line is appended to the in-memory
history and the file when it differs from the last history entry, and the
history is left unchanged when it equals the last entry (`add` drops it). -/
theorem parse_error_after_history_add (h : CommandHistory) (line : String) (e : CmdError)
    (hne : line ≠ "") (herr : Command.tryFrom line = .error e) :
    Debugger.next h line = (h.add line, .parseError e) ∧
    (h.lastCommand ≠ some line →
      (Debugger.next h line).1
        = { history := h.history ++ [line], file := h.file ++ [line] }) ∧
    (h.lastCommand = some line → (Debugger.next h line).1 = h) := by
  refine ⟨?_, ?_, ?_⟩
  · simp [Debugger.next, hne, herr]
  · intro hlast
    simp [Debugger.next, hne, herr, CommandHistory.add_accepted h line hne hlast]
  · intro hlast
    simp [Debugger.next, hne, herr, CommandHistory.add_dup h line hlast]

/-- Witness for `parse_error_after_history_add` on the line `bogus`, against
both a history not ending in `bogus` (the line is recorded, then the parse
error is returned) and a history already ending in `bogus` (`add` drops the
duplicate, the history stays unchanged, the parse error is still returned). -/
theorem parse_error_after_history_add_witness :
    Debugger.next emptyHistory "bogus" = (emptyHistory.add "bogus", .parseError .unknownCommand) ∧
    (Debugger.next emptyHistory "bogus").1
      = { history := emptyHistory.history ++ ["bogus"], file := emptyHistory.file ++ ["bogus"] } ∧
    Debugger.next { history := ["bogus"], file := ["bogus"] } "bogus"
      = (({ history := ["bogus"], file := ["bogus"] } : CommandHistory).add "bogus",
          .parseError .unknownCommand) ∧
    (Debugger.next { history := ["bogus"], file := ["bogus"] } "bogus").1
      = { history := ["bogus"], file := ["bogus"] } := by
  obtain ⟨h1, h2, -⟩ :=
    parse_error_after_history_add emptyHistory "bogus" .unknownCommand (by decide) rfl
  obtain ⟨g1, -, g3⟩ :=
    parse_error_after_history_add { history := ["bogus"], file := ["bogus"] } "bogus"
      .unknownCommand (by decide) rfl
  exact ⟨h1, h2 (by decide), g1, g3 (by decide)⟩

/-- Claim C8 counterexample: register `EAX` is declared `Uint32` in the
catalog (`REGISTER_DECLS`), but `get_value` returns a `Uint64` value for it,
so the returned variant is not the declared format. -/
theorem eax_variant_differs_from_catalog_cex :
    (zeroSnapshot.getValue .EAX).format = .uint64 ∧
    registerDeclFormat .EAX = .uint32 ∧
    (zeroSnapshot.getValue .EAX).format ≠ registerDeclFormat .EAX :=
  ⟨rfl, rfl, by decide⟩

/-- Claim C8 (amended): `read_register` returns `None` whenever no snapshot
exists, and with a snapshot it returns `Some (get_value r)` without touching
the tracee; the variant of the value is `LongDouble` for ST0–ST7, `Byte128`
for XMM0–XMM15 and `Uint64` for every other register — which matches the
catalog's declared format for the 64-bit, x87 and XMM registers but not for
the narrower subregisters (e.g. `EAX`, declared `Uint32`, yields `Uint64`). -/
theorem read_register_snapshot_variants (st : ProcessState) (tp : Option Inferior)
    (sites : List BreakpointSite) (nid : Int) (s : RegisterSnapshot) (r : Register) :
    (Process.mk st tp none sites nid).readRegister r = none ∧
    (Process.mk st tp (some s) sites nid).readRegister r = some (s.getValue r) ∧
    (s.getValue r).format = readVariantOf r := by
  refine ⟨rfl, rfl, ?_⟩
  cases r <;> rfl

/-- Claim C9: folding any command sequence through `CommandHistory::add`
keeps the in-memory history free of empty strings and of consecutive
duplicates, and `last_command` afterwards is exactly the most recently
accepted entry. -/
theorem history_add_invariants (h₀ : CommandHistory) (cmds : List String)
    (hempty : "" ∉ h₀.history) (hchain : h₀.history.Chain' (· ≠ ·)) :
    "" ∉ (cmds.foldl CommandHistory.add h₀).history ∧
    (cmds.foldl CommandHistory.add h₀).history.Chain' (· ≠ ·) ∧
    (cmds.foldl CommandHistory.add h₀).lastCommand = lastAcceptedFrom h₀.lastCommand cmds := by
  induction cmds generalizing h₀ with
  | nil => exact ⟨hempty, hchain, rfl⟩
  | cons c cs ih =>
    have hfold : (c :: cs).foldl CommandHistory.add h₀ = cs.foldl CommandHistory.add (h₀.add c) :=
      rfl
    by_cases hc : c = ""
    · have hadd : h₀.add c = h₀ := by rw [hc]; exact h₀.add_empty
      have hstep : lastAcceptedFrom h₀.lastCommand (c :: cs)
          = lastAcceptedFrom h₀.lastCommand cs := by
        rw [lastAcceptedFrom, if_neg (by simp [hc])]
      obtain ⟨e1, e2, e3⟩ := ih h₀ hempty hchain
      rw [hfold, hadd, hstep]
      exact ⟨e1, e2, e3⟩
    · by_cases hl : h₀.lastCommand = some c
      · have hadd : h₀.add c = h₀ := h₀.add_dup c hl
        have hstep : lastAcceptedFrom h₀.lastCommand (c :: cs)
            = lastAcceptedFrom h₀.lastCommand cs := by
          rw [lastAcceptedFrom, if_neg (by simp [hl])]
        obtain ⟨e1, e2, e3⟩ := ih h₀ hempty hchain
        rw [hfold, hadd, hstep]
        exact ⟨e1, e2, e3⟩
      · have hadd : h₀.add c = { history := h₀.history ++ [c], file := h₀.file ++ [c] } :=
          h₀.add_accepted c hc hl
        have hempty' : "" ∉ (h₀.add c).history := by
          rw [hadd]
          intro hmem
          rcases List.mem_append.mp hmem with h1 | h1
          · exact hempty h1
          · rw [List.mem_singleton] at h1
            exact hc h1.symm
        have hchain' : (h₀.add c).history.Chain' (· ≠ ·) := by
          rw [hadd]
          refine List.chain'_append.mpr ⟨hchain, List.chain'_singleton _, ?_⟩
          intro x hx y hy heq
          rw [List.head?_cons, Option.mem_some_iff] at hy
          apply hl
          rw [CommandHistory.lastCommand, show h₀.history.getLast? = some x from hx, heq, hy]
        have hlast : (h₀.add c).lastCommand = some c := by
          rw [hadd, CommandHistory.lastCommand]
          exact getLast?_append_singleton _ _
        have hstep : lastAcceptedFrom h₀.lastCommand (c :: cs)
            = lastAcceptedFrom (some c) cs := by
          rw [lastAcceptedFrom, if_pos ⟨hc, hl⟩]
        obtain ⟨e1, e2, e3⟩ := ih (h₀.add c) hempty' hchain'
        rw [hfold, hstep]
        exact ⟨e1, e2, by rw [e3, hlast]⟩

/-- Witness for `history_add_invariants` on the session
`run`, `run`, empty line, `continue`, `quit` from an empty history. -/
theorem history_add_invariants_witness :
    "" ∉ ((["run", "run", "", "continue", "quit"].foldl
        CommandHistory.add emptyHistory).history) ∧
    (["run", "run", "", "continue", "quit"].foldl
        CommandHistory.add emptyHistory).history.Chain' (· ≠ ·) ∧
    (["run", "run", "", "continue", "quit"].foldl
        CommandHistory.add emptyHistory).lastCommand
      = lastAcceptedFrom emptyHistory.lastCommand ["run", "run", "", "continue", "quit"] :=
  history_add_invariants emptyHistory ["run", "run", "", "continue", "quit"]
    (by simp [emptyHistory]) (by simp [emptyHistory])

/-- Claim C10: dispatching an empty input line leaves the command history
unchanged — the replayed command is not re-recorded, `last_command` keeps its
value — and with an empty history the dispatcher is a no-op returning
Normal. -/
theorem empty_line_dispatch_preserves_history (h : CommandHistory) :
    (Debugger.next h "").1 = h ∧
    ((Debugger.next h "").1).lastCommand = h.lastCommand ∧
    (h.history = [] → Debugger.next h "" = (h, .noop)) := by
  refine ⟨?_, ?_, ?_⟩
  · cases hl : h.lastCommand with
    | none => simp [Debugger.next, hl]
    | some cmd =>
      cases htf : Command.tryFrom cmd <;> simp [Debugger.next, hl, htf]
  · cases hl : h.lastCommand with
    | none => simp [Debugger.next, hl]
    | some cmd =>
      cases htf : Command.tryFrom cmd <;> simp [Debugger.next, hl, htf]
  · intro hnil
    have hl : h.lastCommand = none := by simp [CommandHistory.lastCommand, hnil]
    simp [Debugger.next, hl]

/-- Witness for `empty_line_dispatch_preserves_history` with empty history. -/
theorem empty_line_dispatch_preserves_history_witness :
    Debugger.next emptyHistory "" = (emptyHistory, .noop) :=
  (empty_line_dispatch_preserves_history emptyHistory).2.2 rfl
